import Mathlib

/-!
Verification of the teacher-salary computation core of the
ghani-school-backend repository: the `SalaryCalculator` engine
(`app/core/salary_calculator.py`), the biometric CSV ingestion pipeline
(`app/api/v1/endpoints/attendance_salary.py`), and invoice generation
(`app/api/v1/endpoints/finance.py`, `app/core/invoice_utils.py`).

Python floats are modelled as `ℚ`; Python dicts with optional keys are
modelled as structures with `Option` fields, `dict.get(k, d)` becoming
`Option.getD`; insertion-ordered dicts used as accumulators become
association lists; database tables become lists carried in an explicit
state record, and the caught-and-logged read failures of the calculator
become explicit boolean "read succeeded" flags of that state.
-/

namespace GhaniSchool

/-! ## Calendar arithmetic (`calendar.monthrange`, `datetime.date.weekday`) -/

/-- Gregorian leap-year test, as used by `calendar.monthrange`. -/
def isLeapYear (y : Nat) : Bool :=
  y % 4 == 0 && (y % 100 != 0 || y % 400 == 0)

/-- Number of days in a month (`monthrange(year, month)[1]`). -/
def daysInMonth (y m : Nat) : Nat :=
  if m = 2 then (if isLeapYear y then 29 else 28)
  else if m = 4 ∨ m = 6 ∨ m = 9 ∨ m = 11 then 30
  else 31

/-- Days in the months strictly before month `m` of year `y`. -/
def daysBeforeMonth (y m : Nat) : Nat :=
  ((List.range (m - 1)).map (fun i => daysInMonth y (i + 1))).sum

/-- Rata-die day number of `y-m-d` in the proleptic Gregorian calendar
(0001-01-01 is day 1), as used by `datetime.date.toordinal`. -/
def rataDie (y m d : Nat) : Nat :=
  (y - 1) * 365 + (y - 1) / 4 - (y - 1) / 100 + (y - 1) / 400 + daysBeforeMonth y m + d

/-- Python `datetime.date(y, m, d).weekday()`: Monday = 0, ..., Sunday = 6. -/
def pyWeekday (y m d : Nat) : Nat :=
  (rataDie y m d + 6) % 7

/-- Source `SalaryCalculator.calculate_working_days`: days of the month whose
weekday is strictly below 5 (i.e. Monday..Friday) when weekends are
excluded, otherwise every day of the month. -/
def calculate_working_days (month year : Nat) (exclude_weekends : Bool) : Nat :=
  let days_in_month := daysInMonth year month
  if !exclude_weekends then days_in_month
  else ((List.range days_in_month).filter
    (fun d => decide (pyWeekday year month (d + 1) < 5))).length

/-- The number of Saturdays (weekday 5) and Sundays (weekday 6) in the
month, stated from the spec's words for comparison with
`calculate_working_days`. -/
def weekendDaysInMonth (month year : Nat) : Nat :=
  ((List.range (daysInMonth year month)).filter
    (fun d => decide (pyWeekday year month (d + 1) = 5 ∨ pyWeekday year month (d + 1) = 6))).length

/-! ## The normalized data model of the engine -/

/-- A calendar date `(year, month, day)`; ISO-string comparison on the
database side is lexicographic comparison of these components. -/
structure CalDate where
  year : Nat
  month : Nat
  day : Nat
deriving DecidableEq, Repr

/-- ISO-string `≤` on dates. -/
def dateLE (a b : CalDate) : Bool :=
  decide (a.year < b.year ∨ (a.year = b.year ∧
    (a.month < b.month ∨ (a.month = b.month ∧ a.day ≤ b.day))))

/-- ISO-string `<` on dates. -/
def dateLT (a b : CalDate) : Bool :=
  decide (a.year < b.year ∨ (a.year = b.year ∧
    (a.month < b.month ∨ (a.month = b.month ∧ a.day < b.day))))

/-- The test `start_date ≤ d < end_date` for the month window computed at
`salary_calculator.py` lines 108-112 (end date is the first day of the
next month, rolling over December). -/
def inMonthWindow (d : CalDate) (month year : Nat) : Bool :=
  dateLE ⟨year, month, 1⟩ d &&
    dateLT d (if month = 12 then ⟨year + 1, 1, 1⟩ else ⟨year, month + 1, 1⟩)

/-- A row of the `attendance_rules` table as the engine reads it: every
field is fetched with `dict.get`, so each is optional. -/
structure DeductionRule where
  rule_name : Option String
  rule_type : Option String
  deduction_type : Option String
  deduction_value : Option ℚ
  grace_minutes : Option Int
  max_late_count : Option Int
  is_active : Bool
deriving DecidableEq, Repr

/-- A normalized attendance record as consumed by
`apply_deduction_rules` (a Python dict; every key optional). -/
structure Event where
  attendance_date : Option CalDate
  status : Option String
  deduction_amount : Option ℚ
  deduction_reason : Option String
  late_minutes : Option Int
  early_departure_minutes : Option Int
deriving DecidableEq, Repr

/-! ## `SalaryCalculator._calculate_deduction` -/

/-- Source `_calculate_deduction(rule, per_day_salary, context)`: dispatch on
`deduction_type`; an unrecognized type yields 0. `context` is unused in
the source and kept for signature fidelity. -/
def calculate_deduction (rule : DeductionRule) (context : String) (per_day_salary : ℚ) : ℚ :=
  let deduction_value := rule.deduction_value.getD 0
  match rule.deduction_type with
  | some "percentage" => (deduction_value / 100) * per_day_salary
  | some "fixed_amount" => deduction_value
  | some "full_day" => per_day_salary
  | some "half_day" => per_day_salary / 2
  | _ => (fun _ => (0 : ℚ)) context

/-! ## `SalaryCalculator.apply_deduction_rules` -/

/-- The update `d[k] = d.get(k, 0.0) + v` on an insertion-ordered association list
(the Python dict `deductions_by_rule`): update the first occurrence of
the key, appending a fresh key at the end. -/
def dictAdd : List (String × ℚ) → String → ℚ → List (String × ℚ)
  | [], k, v => [(k, v)]
  | (k₀, v₀) :: rest, k, v =>
      if k₀ = k then (k₀, v₀ + v) :: rest else (k₀, v₀) :: dictAdd rest k v

/-- Sum of the values of a breakdown map. -/
def dictSum (m : List (String × ℚ)) : ℚ :=
  (m.map Prod.snd).sum

/-- The `total_deductions += d; deductions_by_rule[name] += d` pattern of
`apply_deduction_rules`. -/
def accrue (acc : ℚ × List (String × ℚ)) (name : String) (amt : ℚ) : ℚ × List (String × ℚ) :=
  (acc.1 + amt, dictAdd acc.2 name amt)

/-- The lookup `rules_by_type[t]`: the active-rule list grouped by `rule_type`
(grouping preserves list order, and a type is "in" the dict exactly when
this list is nonempty). -/
def rulesOfType (rules : List DeductionRule) (t : String) : List DeductionRule :=
  rules.filter (fun r => decide (r.rule_type = some t))

/-- Breakdown key derived from a precomputed `deduction_reason`: the text
before the first colon, or `"Manual"` when the reason has no colon
(`reason.split(":")[0] if ":" in reason else "Manual"`). -/
def reasonKey (reason : String) : String :=
  let parts := reason.splitOn ":"
  if parts.length > 1 then parts.headD reason else "Manual"

/-- Python truthiness of the optional `deduction_reason` string: `None`
and `""` are falsy. -/
def reasonTruthy : Option String → Bool
  | some s => decide (s ≠ "")
  | none => false

/-- The predicate of the per-event late count at
`salary_calculator.py` lines 282-284: records with
`status == "late"` whose `late_minutes` exceed the rule's grace. -/
def lateBeyondGrace (grace : Int) (r : Event) : Bool :=
  decide (r.status = some "late") && decide (r.late_minutes.getD 0 > grace)

/-- One iteration of the record loop of `apply_deduction_rules`
(lines 227-304): precomputed-deduction short circuit, then dispatch on
status, with the late branch recounting the whole month's beyond-grace
late records against `max_late_count`. -/
def processRecord (all_records : List Event) (per_day_salary : ℚ)
    (rules : List DeductionRule) (acc : ℚ × List (String × ℚ)) (record : Event) :
    ℚ × List (String × ℚ) :=
  let status := record.status.getD "absent"
  let deduction_amount := record.deduction_amount.getD 0
  if deduction_amount > 0 ∧ reasonTruthy record.deduction_reason = true then
    accrue acc (reasonKey (record.deduction_reason.getD "")) deduction_amount
  else if status = "absent" then
    (rulesOfType rules "absent").foldl
      (fun a rule => accrue a (rule.rule_name.getD "Absent")
        (calculate_deduction rule "full_day" per_day_salary)) acc
  else if status = "half_day" then
    if rulesOfType rules "half_day" ≠ [] then
      (rulesOfType rules "half_day").foldl
        (fun a rule => accrue a (rule.rule_name.getD "Half Day")
          (calculate_deduction rule "half_day" per_day_salary)) acc
    else accrue acc "Half Day (Default)" (per_day_salary / 2)
  else if status = "late" then
    let late_minutes := record.late_minutes.getD 0
    (rulesOfType rules "late_coming").foldl
      (fun a rule =>
        let grace_minutes := rule.grace_minutes.getD 0
        let max_late_count := rule.max_late_count.getD 3
        if late_minutes > grace_minutes then
          if ((all_records.filter (lateBeyondGrace grace_minutes)).length : Int) > max_late_count then
            accrue a (rule.rule_name.getD "Late Coming")
              (calculate_deduction rule "late" per_day_salary)
          else a
        else a) acc
  else if status = "early_departure" then
    (rulesOfType rules "early_departure").foldl
      (fun a rule => accrue a (rule.rule_name.getD "Early Departure")
        (calculate_deduction rule "early_departure" per_day_salary)) acc
  else acc

/-- Source `apply_deduction_rules(attendance_records, per_day_salary,
deduction_rules) -> (total_deductions, deductions_by_rule)`. -/
def apply_deduction_rules (attendance_records : List Event) (per_day_salary : ℚ)
    (deduction_rules : List DeductionRule) : ℚ × List (String × ℚ) :=
  attendance_records.foldl
    (processRecord attendance_records per_day_salary deduction_rules) (0, [])

/-! ## The database state seen by the calculator

`SalaryCalculator` reads five tables through a Supabase client; reads
inside the calculator's helper methods are wrapped in `try/except` and a
failure is treated as "no data from this source", so each guarded read
gets an explicit success flag here. -/

/-- A row of the `teachers` table (only the columns the calculator reads). -/
structure TeacherRow where
  id : String
  user_id : String
  full_name : String
deriving DecidableEq, Repr

/-- A persisted `biometric_attendance` row, as written by the ingestion
pipeline or the manual biometric endpoint. -/
structure BioRow where
  teacher_id : String
  attendance_date : CalDate
  check_in_time : Option Nat
  status : String
  late_minutes : Int
  deduction_amount : ℚ
  deduction_reason : String
  uploaded_file_id : Option String
deriving DecidableEq, Repr

/-- A row of the manual `attendance` table (only what the fallback reads). -/
structure ManualRow where
  user_id : String
  date : CalDate
  status : Option String
deriving DecidableEq, Repr

/-- A row of `teacher_salary_config` (amount columns read with
`dict.get(..., 0)`). -/
structure SalaryConfig where
  teacher_id : String
  basic_monthly_salary : Option ℚ
  per_day_salary : Option ℚ
  is_active : Bool
deriving DecidableEq, Repr

/-- The database as the calculator sees it: table contents plus a
success flag for each `try/except`-guarded read block
(`get_attendance_records`'s biometric block, its regular-attendance
fallback block, and `get_deduction_rules`). -/
structure DB where
  teachers : List TeacherRow
  biometric : List BioRow
  attendance : List ManualRow
  salary_configs : List SalaryConfig
  attendance_rules : List DeductionRule
  bio_read_ok : Bool
  reg_read_ok : Bool
  rules_read_ok : Bool
deriving Repr

/-! ## `SalaryCalculator.get_attendance_records` (attendance source resolver) -/

/-- The engine's view of a biometric row: the same record, its keys all
present (`get` never falls back to a default on it). -/
def bioToEvent (r : BioRow) : Event :=
  { attendance_date := some r.attendance_date
    status := some r.status
    deduction_amount := some r.deduction_amount
    deduction_reason := some r.deduction_reason
    late_minutes := some r.late_minutes
    early_departure_minutes := none }

/-- The fallback mapping of a manual attendance row
(`salary_calculator.py` lines 154-168): `excused` becomes `present`,
every other status passes through (`get("status", "absent")`), and the
deduction fields are zero / `None`. -/
def manualToEvent (a : ManualRow) : Event :=
  let status := a.status.getD "absent"
  { attendance_date := some a.date
    status := some (if status = "excused" then "present" else status)
    deduction_amount := some 0
    deduction_reason := none
    late_minutes := some 0
    early_departure_minutes := some 0 }

/-- The biometric records of a teacher within the month window. -/
def bioWindow (db : DB) (teacher_id : String) (month year : Nat) : List BioRow :=
  db.biometric.filter
    (fun r => decide (r.teacher_id = teacher_id) && inMonthWindow r.attendance_date month year)

/-- The manual attendance of a user within the month window. -/
def manualWindow (db : DB) (user_id : String) (month year : Nat) : List ManualRow :=
  db.attendance.filter
    (fun a => decide (a.user_id = user_id) && inMonthWindow a.date month year)

/-- Source `get_attendance_records(teacher_id, month, year, use_biometric,
fallback_to_regular)`: biometric first (requiring the teacher lookup and
the read to succeed), returned verbatim when nonempty; else the manual
fallback mapped through `manualToEvent`; else the empty list. A failed
`.single()` teacher lookup raises and is caught, so a missing teacher
yields nothing from either source. -/
def get_attendance_records (db : DB) (teacher_id : String) (month year : Nat)
    (use_biometric fallback_to_regular : Bool) : List Event :=
  let bio : List Event :=
    if use_biometric && db.bio_read_ok && db.teachers.any (fun t => decide (t.id = teacher_id)) then
      (bioWindow db teacher_id month year).map bioToEvent
    else []
  if bio ≠ [] then bio
  else if fallback_to_regular then
    if db.reg_read_ok then
      match db.teachers.find? (fun t => decide (t.id = teacher_id)) with
      | some t => (manualWindow db t.user_id month year).map manualToEvent
      | none => []
    else []
  else []

/-! ## `SalaryCalculator.get_deduction_rules` and `calculate_salary` -/

/-- Source `get_deduction_rules(active_only=True)`: the active rules in table
order, or `[]` when the read fails. -/
def get_deduction_rules (db : DB) : List DeductionRule :=
  if db.rules_read_ok then db.attendance_rules.filter (fun r => r.is_active) else []

/-- The teacher's active `teacher_salary_config` rows, in table order. -/
def activeConfigs (db : DB) (teacher_id : String) : List SalaryConfig :=
  db.salary_configs.filter (fun c => decide (c.teacher_id = teacher_id) && c.is_active)

/-- The output of `calculate_salary` (`SalaryCalculationResult`; the
nested `calculation_details` dict repeats these same figures and is not
modelled separately, except for `attendance_percentage`). -/
structure SalaryCalculationResult where
  basic_salary : ℚ
  per_day_salary : ℚ
  total_working_days : Nat
  present_days : Nat
  absent_days : Nat
  half_days : Nat
  late_days : Nat
  total_deductions : ℚ
  deductions_by_rule : List (String × ℚ)
  bonuses : ℚ
  allowances : ℚ
  net_salary : ℚ
  attendance_percentage : ℚ
deriving DecidableEq, Repr

/-- The `ValueError` message raised at `salary_calculator.py` line 375. -/
def noConfigMsg (teacher_id : String) : String :=
  "No active salary configuration found for teacher " ++ teacher_id

/-- Source `calculate_salary`: configuration lookup (the one hard failure),
working days, per-day derivation, attendance resolution, rule
application, and the net-salary formula. -/
def calculate_salary (db : DB) (teacher_id : String) (month year : Nat)
    (basic_salary per_day_salary : Option ℚ) (bonuses allowances : ℚ)
    (use_biometric fallback_to_regular : Bool) :
    Except String SalaryCalculationResult :=
  let config : Except String (ℚ × ℚ) :=
    match basic_salary, per_day_salary with
    | some b, some p => .ok (b, p)
    | _, _ =>
      match activeConfigs db teacher_id with
      | [] => .error (noConfigMsg teacher_id)
      | c :: _ => .ok (c.basic_monthly_salary.getD 0, c.per_day_salary.getD 0)
  match config with
  | .error e => .error e
  | .ok (basic, pd₀) =>
    let total_working_days := calculate_working_days month year true
    let per_day : ℚ :=
      if pd₀ = 0 then
        (if total_working_days > 0 then basic / (total_working_days : ℚ) else 0)
      else pd₀
    let records := get_attendance_records db teacher_id month year use_biometric fallback_to_regular
    let present_days := (records.filter (fun r => decide (r.status = some "present"))).length
    let absent_days := (records.filter (fun r => decide (r.status = some "absent"))).length
    let half_days := (records.filter (fun r => decide (r.status = some "half_day"))).length
    let late_days := (records.filter (fun r => decide (r.status = some "late"))).length
    let rules := get_deduction_rules db
    let applied := apply_deduction_rules records per_day rules
    .ok
      { basic_salary := basic
        per_day_salary := per_day
        total_working_days := total_working_days
        present_days := present_days
        absent_days := absent_days
        half_days := half_days
        late_days := late_days
        total_deductions := applied.1
        deductions_by_rule := applied.2
        bonuses := bonuses
        allowances := allowances
        net_salary := basic - applied.1 + bonuses + allowances
        attendance_percentage :=
          if total_working_days > 0 then
            (present_days : ℚ) / (total_working_days : ℚ) * 100
          else 0 }

/-! ## Biometric CSV ingestion (`upload_biometric_csv`)

Each CSV row is processed independently inside its own `try/except`:
fuzzy teacher match, `strptime` date/time parsing, lateness
classification against the active school timing, immediate application
of the active late-coming rule, and an upsert keyed on
`(teacher_id, attendance_date)`. Row results are folded into the
upload-history counters and error log. -/

/-- A `strptime` numeric field: at most `maxLen` digits, value in
`[lo, hi]`. -/
def parseField (s : String) (maxLen lo hi : Nat) : Option Nat :=
  if s = "" ∨ ¬ s.all Char.isDigit ∨ s.length > maxLen then none
  else match s.toNat? with
    | some n => if lo ≤ n ∧ n ≤ hi then some n else none
    | none => none

def weekdayNames : List String :=
  ["monday", "tuesday", "wednesday", "thursday", "friday", "saturday", "sunday"]

def monthNames : List String :=
  ["january", "february", "march", "april", "may", "june",
   "july", "august", "september", "october", "november", "december"]

/-- Parsing `datetime.strptime(s, "%A, %B %d, %Y").date()`: weekday name
(validated against the seven names, case-insensitively, but not checked
for consistency with the date), month name, 1-2 digit day validated
against the month length, 1-4 digit year. -/
def parse_date_csv (s : String) : Option CalDate :=
  match s.splitOn ", " with
  | [wd, monthDay, yr] =>
    match monthDay.splitOn " " with
    | [mon, dd] =>
      if weekdayNames.contains wd.toLower then
        match monthNames.findIdx? (fun n => n = mon.toLower) with
        | some idx =>
          match parseField dd 2 1 31, parseField yr 4 1 9999 with
          | some d, some y =>
            if d ≤ daysInMonth y (idx + 1) then some ⟨y, idx + 1, d⟩ else none
          | _, _ => none
        | none => none
      else none
    | _ => none
  | _ => none

/-- Parsing `datetime.strptime(s, "%I:%M:%S %p").time()` as seconds since
midnight: 12-hour clock with case-insensitive AM/PM. -/
def parse_time_csv (s : String) : Option Nat :=
  match s.splitOn " " with
  | [hms, ampm] =>
    match hms.splitOn ":" with
    | [hh, mm, ss] =>
      match parseField hh 2 1 12, parseField mm 2 0 59, parseField ss 2 0 59 with
      | some h, some m, some sec =>
        let pm := ampm.toLower
        if pm = "pm" then some ((if h = 12 then 12 else h + 12) * 3600 + m * 60 + sec)
        else if pm = "am" then some ((if h = 12 then 0 else h) * 3600 + m * 60 + sec)
        else none
      | _, _, _ => none
    | _ => none
  | _ => none

/-- The filter matching a teacher name, ilike with a percent-wrapped pattern: case-insensitive substring
match (an empty pattern matches everything). -/
def likeMatch (full pattern : String) : Bool :=
  pattern = "" || (full.toLower.splitOn pattern.toLower).length > 1

/-- A row of `school_timings` as ingestion reads it (`arrival_time`
parsed from `"%H:%M:%S"`, held as seconds since midnight). -/
structure SchoolTiming where
  arrival_time : Nat
  grace_period_minutes : Nat
deriving DecidableEq, Repr

/-- One raw CSV row (`DictReader` values of the `Name`, `Time`, `Date`,
`Status` columns; a missing column reads as `""`). -/
structure CsvRow where
  name : String
  time : String
  date : String
  csv_status : String
deriving DecidableEq, Repr

/-- The ingestion code builds a dict keyed by rule_type, so per type the
last rule of the response wins; the late-coming lookup is therefore the
last active rule of that type. -/
def lastRuleOfType (rules : List DeductionRule) (t : String) : Option DeductionRule :=
  (rules.filter (fun r => decide (r.rule_type = some t))).getLast?

/-- The deduction precomputed at ingestion time for a late check-in
(`attendance_salary.py` lines 246-250): for a `percentage` rule the code
stores `deduction_value * 100` (its comment says "Assuming per_day_salary
is 100"); for `fixed_amount` it stores the value; otherwise 0. -/
def ingestion_late_deduction (rule : DeductionRule) : ℚ :=
  if rule.deduction_type = some "percentage" then rule.deduction_value.getD 0 * 100
  else if rule.deduction_type = some "fixed_amount" then rule.deduction_value.getD 0
  else 0

/-- What ingestion reads once per upload: the matched teachers, the
active school timing (first row, if any), and the active rules. -/
structure IngestEnv where
  teachers : List TeacherRow
  active_timing : Option SchoolTiming
  active_rules : List DeductionRule
deriving Repr

/-- The outcome of one CSV row: an upserted biometric record, or a
row-level error message appended to the error log. -/
inductive RowResult where
  | ok (rec : BioRow)
  | fail (msg : String)
deriving DecidableEq, Repr

/-- Lateness classification and precomputed deduction for a check-in row
(`attendance_salary.py` lines 230-251): `(status, late_minutes,
deduction_amount, deduction_reason)`. The grace deadline is
`arrival_time + grace_period_minutes`, wrapping past midnight as
Python's `.time()` does; `late_minutes` is measured from the nominal
arrival time and truncated toward zero. -/
def classifyCheckIn (env : IngestEnv) (csv_status : String) (t : Nat) :
    String × Int × ℚ × String :=
  match env.active_timing with
  | some timing =>
    if csv_status = "C/In" then
      let grace_deadline := (timing.arrival_time + timing.grace_period_minutes * 60) % 86400
      if t > grace_deadline then
        let late_minutes : Int := Int.tdiv ((t : Int) - (timing.arrival_time : Int)) 60
        match lastRuleOfType env.active_rules "late_coming" with
        | some rule =>
          ("late", late_minutes, ingestion_late_deduction rule,
            "Late arrival: " ++ toString late_minutes ++ " minutes")
        | none => ("late", late_minutes, 0, "")
      else ("present", 0, 0, "")
    else ("present", 0, 0, "")
  | none => ("present", 0, 0, "")

/-- Process one CSV row (`attendance_salary.py` lines 203-279): strip
the fields, fuzzy-match the teacher (first match wins), parse date and
time, classify, and build the biometric record to upsert. -/
def process_csv_row (env : IngestEnv) (upload_id : String) (row : CsvRow) : RowResult :=
  let teacher_name := row.name.trim
  let check_in_time := row.time.trim
  let attendance_date := row.date.trim
  let csv_status := row.csv_status.trim
  match env.teachers.find? (fun t => likeMatch t.full_name teacher_name) with
  | none => .fail ("Teacher not found: " ++ teacher_name)
  | some t =>
    match parse_date_csv attendance_date, parse_time_csv check_in_time with
    | some parsed_date, some parsed_time =>
      let c := classifyCheckIn env csv_status parsed_time
      .ok { teacher_id := t.id
            attendance_date := parsed_date
            check_in_time := if csv_status = "C/In" then some parsed_time else none
            status := c.1
            late_minutes := c.2.1
            deduction_amount := c.2.2.1
            deduction_reason := c.2.2.2
            uploaded_file_id := some upload_id }
    | _, _ =>
      .fail ("Invalid date/time format for " ++ teacher_name ++ ": "
        ++ attendance_date ++ ", " ++ check_in_time)

/-- Upsert keyed on `(teacher_id, attendance_date)`: overwrite the first
existing row for that key, else insert at the end. -/
def upsertBio : List BioRow → BioRow → List BioRow
  | [], rec => [rec]
  | r :: rest, rec =>
      if r.teacher_id = rec.teacher_id ∧ r.attendance_date = rec.attendance_date then rec :: rest
      else r :: upsertBio rest rec

/-- The upload-history counters, error log, and biometric table as the
row loop maintains them. -/
structure UploadState where
  records_processed : Nat
  records_successful : Nat
  records_failed : Nat
  error_log : List String
  bio_db : List BioRow
deriving Repr

/-- One iteration of the row loop: count the row, then either upsert on
success or append the row error and count the failure. -/
def processUploadRow (env : IngestEnv) (upload_id : String)
    (st : UploadState) (row : CsvRow) : UploadState :=
  match process_csv_row env upload_id row with
  | .ok rec =>
      { st with records_processed := st.records_processed + 1
                records_successful := st.records_successful + 1
                bio_db := upsertBio st.bio_db rec }
  | .fail msg =>
      { st with records_processed := st.records_processed + 1
                records_failed := st.records_failed + 1
                error_log := st.error_log ++ [msg] }

/-- The whole-upload fold plus the final `upload_status`
(`attendance_salary.py` line 282): `completed` when nothing failed, else
`partial` when something succeeded, else `failed`. -/
def upload_biometric_csv (env : IngestEnv) (upload_id : String)
    (initial_bio : List BioRow) (rows : List CsvRow) : UploadState × String :=
  let final := rows.foldl (processUploadRow env upload_id)
    { records_processed := 0, records_successful := 0, records_failed := 0,
      error_log := [], bio_db := initial_bio }
  (final,
    if final.records_failed = 0 then "completed"
    else if final.records_successful > 0 then "partial"
    else "failed")

/-! ## Invoice generation (`finance.py` `generate_invoice`,
`invoice_utils.py`)

Invoice dates are carried as rata-die day numbers; ISO-string date
comparison in the month-window count is order-isomorphic to comparison
of these numbers. -/

/-- A `monthly_salary_calculations` row as `generate_invoice` and
`build_invoice_items` read it (the nested `calculation_details` dict is
flattened into the breakdown map and the attendance-summary counters;
`bonuses` is optional because the code tests `"bonuses" in calculation`). -/
structure Calculation where
  id : String
  teacher_id : String
  calculation_month : Nat
  calculation_year : Nat
  is_approved : Bool
  basic_salary : ℚ
  total_deductions : ℚ
  bonuses : Option ℚ
  net_salary : ℚ
  ded_by_rule : List (String × ℚ)
  att_present : Nat
  att_absent : Nat
  att_half : Nat
  att_late : Nat
  att_total : Nat
deriving DecidableEq, Repr

/-- One invoice line item. -/
structure InvoiceItem where
  description : String
  quantity : ℚ
  unit_price : ℚ
  amount : ℚ
  category : String
deriving DecidableEq, Repr

/-- An `invoices` row. -/
structure Invoice where
  invoice_number : String
  teacher_id : String
  calculation_id : String
  month : Nat
  year : Nat
  invoice_date : Nat
  due_date : Nat
  inv_status : String
  items : List InvoiceItem
  subtotal : ℚ
  deductions : ℚ
  bonuses : ℚ
  tax : ℚ
  net_amount : ℚ
  total_amount : ℚ
  notes : Option String
deriving DecidableEq, Repr

/-- Zero-pad a number to `w` digits (Python's `{n:0wd}`). -/
def padZeros (w n : Nat) : String :=
  let s := toString n
  String.join (List.replicate (w - s.length) "0") ++ s

/-- Source `generate_invoice_number`: `INV-{year}-{month:02d}-{seq:05d}` with
`seq` = 1 + the count of invoices dated in that month. -/
def generate_invoice_number (invoices : List Invoice) (month year : Nat) : String :=
  let start := rataDie year month 1
  let stop := if month = 12 then rataDie (year + 1) 1 1 else rataDie year (month + 1) 1
  let count := (invoices.filter (fun i => decide (start ≤ i.invoice_date ∧ i.invoice_date < stop))).length
  "INV-" ++ toString year ++ "-" ++ padZeros 2 month ++ "-" ++ padZeros 5 (count + 1)

/-- Source `calculate_due_date(invoice_date, days=30)`. -/
def calculate_due_date (invoice_date days : Nat) : Nat :=
  invoice_date + days

/-- Source `build_invoice_items(calculation, template)`: always a basic-salary
line; in `detailed` mode an informational attendance line, one line per
positive breakdown entry (falling back to a single total-deductions line
when the breakdown dict is empty) and a bonus line; in any other mode a
single aggregated deduction line and a bonus line. -/
def build_invoice_items (calcRow : Calculation) (template : String) : List InvoiceItem :=
  let basic := calcRow.basic_salary
  let total_deductions := calcRow.total_deductions
  let bonuses := calcRow.bonuses.getD 0
  let baseItem : InvoiceItem :=
    { description := "Basic Monthly Salary", quantity := 1, unit_price := basic,
      amount := basic, category := "salary" }
  let bonusItems : List InvoiceItem :=
    if bonuses > 0 then
      [{ description := "Bonuses", quantity := 1, unit_price := bonuses,
         amount := bonuses, category := "bonus" }]
    else []
  if template = "detailed" then
    let attItems : List InvoiceItem :=
      if calcRow.att_total > 0 then
        [{ description := "Attendance: " ++ toString calcRow.att_present ++ " Present, "
             ++ toString calcRow.att_absent ++ " Absent, " ++ toString calcRow.att_half
             ++ " Half Day, " ++ toString calcRow.att_late ++ " Late",
           quantity := 1, unit_price := 0, amount := 0, category := "attendance" }]
      else []
    let dedItems : List InvoiceItem :=
      if calcRow.ded_by_rule ≠ [] then
        (calcRow.ded_by_rule.filter (fun p => decide (p.2 > 0))).map
          (fun p => { description := "Deduction: " ++ p.1, quantity := 1,
                      unit_price := -p.2, amount := -p.2, category := "deduction" })
      else if total_deductions > 0 then
        [{ description := "Total Deductions", quantity := 1, unit_price := -total_deductions,
           amount := -total_deductions, category := "deduction" }]
      else []
    baseItem :: (attItems ++ dedItems ++ bonusItems)
  else
    let dedItems : List InvoiceItem :=
      if total_deductions > 0 then
        [{ description := "Deductions", quantity := 1, unit_price := -total_deductions,
           amount := -total_deductions, category := "deduction" }]
      else []
    baseItem :: (dedItems ++ bonusItems)

/-- The request body of `POST /finance/invoices` (`InvoiceCreate`). -/
structure InvoiceReq where
  calculation_id : String
  invoice_date : Option Nat
  due_date : Option Nat
  template : String
  notes : Option String
deriving DecidableEq, Repr

/-- Failure modes of `generate_invoice` before anything is written. -/
inductive InvoiceError where
  | notFound
  | notApproved
deriving DecidableEq, Repr

/-- The finance tables touched by `generate_invoice`. -/
structure FinanceDB where
  calculations : List Calculation
  invoices : List Invoice
deriving Repr

/-- Source `generate_invoice(invoice_data)` (`finance.py` lines 550-648): load
the calculation, require approval, return any existing invoice for the
calculation unchanged, otherwise build and insert a new one. The result
pairs the HTTP outcome with the resulting invoices table (`today`
supplies `date.today()`). -/
def generate_invoice (db : FinanceDB) (req : InvoiceReq) (today : Nat) :
    Except InvoiceError Invoice × FinanceDB :=
  match db.calculations.find? (fun c => decide (c.id = req.calculation_id)) with
  | none => (.error .notFound, db)
  | some calcRow =>
    if !calcRow.is_approved then (.error .notApproved, db)
    else
      match db.invoices.find? (fun i => decide (i.calculation_id = req.calculation_id)) with
      | some inv => (.ok inv, db)
      | none =>
        let month := calcRow.calculation_month
        let year := calcRow.calculation_year
        let invoice_number := generate_invoice_number db.invoices month year
        let invoice_date := req.invoice_date.getD today
        let due_date := req.due_date.getD (calculate_due_date invoice_date 30)
        let items := build_invoice_items calcRow req.template
        let tax : ℚ := 0
        let inv : Invoice :=
          { invoice_number := invoice_number
            teacher_id := calcRow.teacher_id
            calculation_id := req.calculation_id
            month := month
            year := year
            invoice_date := invoice_date
            due_date := due_date
            inv_status := "draft"
            items := items
            subtotal := calcRow.basic_salary
            deductions := calcRow.total_deductions
            bonuses := calcRow.bonuses.getD 0
            tax := tax
            net_amount := calcRow.net_salary
            total_amount := calcRow.net_salary + tax
            notes := req.notes }
        (.ok inv, { db with invoices := db.invoices ++ [inv] })

/-! ## Concrete instances used by witnesses, counterexamples and scenarios -/

/-- The invariant C10 is about: a running total equal to the sum of the
running breakdown map. -/
def sumInv (acc : ℚ × List (String × ℚ)) : Prop :=
  acc.1 = dictSum acc.2

/-- A `late` event with the given `late_minutes` and no precomputed
deduction, used by the C1 instances. -/
def mkLateEvent (lm : Int) : Event :=
  { attendance_date := none, status := some "late", deduction_amount := none,
    deduction_reason := none, late_minutes := some lm, early_departure_minutes := none }

/-- An active `LateComing` rule with `grace_minutes = 10`,
`max_late_count = 3` and a fixed deduction of 100 per application. -/
def exLateRule : DeductionRule :=
  { rule_name := some "Late Coming", rule_type := some "late_coming",
    deduction_type := some "fixed_amount", deduction_value := some 100,
    grace_minutes := some 10, max_late_count := some 3, is_active := true }

def exLateEvents3 : List Event := [mkLateEvent 30, mkLateEvent 30, mkLateEvent 30]

def exLateEvents4 : List Event :=
  [mkLateEvent 30, mkLateEvent 30, mkLateEvent 30, mkLateEvent 30]

/-- An active `percentage` late-coming rule with `deduction_value = 5`
(i.e. 5 percent of the per-day salary), used by the C2 instance. -/
def exPctRule : DeductionRule :=
  { rule_name := some "Late Coming", rule_type := some "late_coming",
    deduction_type := some "percentage", deduction_value := some 5,
    grace_minutes := some 10, max_late_count := some 3, is_active := true }

/-- Teacher, biometric rows, rule and database of the C3 scenario:
`basic_monthly_salary = 30000`, `per_day_salary = 1000`, two absences,
one active `Absent` rule of deduction type `full_day`. -/
def exAbsentRule : DeductionRule :=
  { rule_name := some "Absent Rule", rule_type := some "absent",
    deduction_type := some "full_day", deduction_value := some 0,
    grace_minutes := none, max_late_count := none, is_active := true }

def exAbsentBio (d : Nat) : BioRow :=
  { teacher_id := "t1", attendance_date := ⟨2026, 1, d⟩, check_in_time := none,
    status := "absent", late_minutes := 0, deduction_amount := 0, deduction_reason := "",
    uploaded_file_id := none }

def exScenarioDB : DB :=
  { teachers := [⟨"t1", "u1", "Alice Smith"⟩],
    biometric := [exAbsentBio 5, exAbsentBio 6],
    attendance := [], salary_configs := [], attendance_rules := [exAbsentRule],
    bio_read_ok := true, reg_read_ok := true, rules_read_ok := true }

/-- An unapproved calculation and its database, the C8 witness input. -/
def exUnapprovedCalc : Calculation :=
  { id := "c1", teacher_id := "t1", calculation_month := 1, calculation_year := 2026,
    is_approved := false, basic_salary := 30000, total_deductions := 2000,
    bonuses := none, net_salary := 28000, ded_by_rule := [("Absent Rule", 2000)],
    att_present := 20, att_absent := 2, att_half := 0, att_late := 0, att_total := 22 }

def exFinanceDB : FinanceDB :=
  { calculations := [exUnapprovedCalc], invoices := [] }

def exInvoiceReq : InvoiceReq :=
  { calculation_id := "c1", invoice_date := none, due_date := none,
    template := "detailed", notes := none }

/-! ## Helper lemmas -/

theorem dictSum_nil : dictSum [] = 0 := rfl

theorem dictSum_cons (p : String × ℚ) (m : List (String × ℚ)) :
    dictSum (p :: m) = p.2 + dictSum m := by
  simp [dictSum]

theorem dictSum_dictAdd (m : List (String × ℚ)) (k : String) (v : ℚ) :
    dictSum (dictAdd m k v) = dictSum m + v := by
  induction m with
  | nil => simp [dictAdd, dictSum]
  | cons p rest ih =>
      obtain ⟨k₀, v₀⟩ := p
      by_cases h : k₀ = k
      · simp [dictAdd, h, dictSum_cons]
        ring
      · simp [dictAdd, h, dictSum_cons, ih]
        ring

theorem sumInv_accrue (acc : ℚ × List (String × ℚ)) (name : String) (amt : ℚ)
    (h : sumInv acc) : sumInv (accrue acc name amt) := by
  unfold sumInv at h ⊢
  simp [accrue, dictSum_dictAdd, h]

theorem sumInv_foldl {β : Type} (f : (ℚ × List (String × ℚ)) → β → (ℚ × List (String × ℚ)))
    (hf : ∀ a b, sumInv a → sumInv (f a b)) :
    ∀ (l : List β) (a : ℚ × List (String × ℚ)), sumInv a → sumInv (l.foldl f a) := by
  intro l
  induction l with
  | nil => intro a ha; exact ha
  | cons b rest ih => intro a ha; exact ih (f a b) (hf a b ha)

theorem sumInv_processRecord (all_records : List Event) (per_day_salary : ℚ)
    (rules : List DeductionRule) (acc : ℚ × List (String × ℚ)) (record : Event)
    (h : sumInv acc) :
    sumInv (processRecord all_records per_day_salary rules acc record) := by
  unfold processRecord
  dsimp only
  split_ifs with h1 h2 h3 h4 h5
  · exact sumInv_accrue _ _ _ h
  · exact sumInv_foldl _ (fun a b ha => sumInv_accrue _ _ _ ha) _ _ h
  · exact sumInv_foldl _ (fun a b ha => sumInv_accrue _ _ _ ha) _ _ h
  · exact sumInv_accrue _ _ _ h
  · refine sumInv_foldl _ (fun a b ha => ?_) _ _ h
    dsimp only
    split_ifs with h6 h7
    · exact sumInv_accrue _ _ _ ha
    · exact ha
    · exact ha
  · exact sumInv_foldl _ (fun a b ha => sumInv_accrue _ _ _ ha) _ _ h
  · exact h

/-! ## Claims -/

/-- C10: for every list of attendance records, per-day salary and rule
set, the `total_deductions` returned by `apply_deduction_rules` equals
the sum of the values of the returned `deductions_by_rule` breakdown
map: every amount accrued to the total goes to exactly one breakdown key
and vice versa. -/
theorem c10_total_equals_breakdown_sum (attendance_records : List Event)
    (per_day_salary : ℚ) (deduction_rules : List DeductionRule) :
    (apply_deduction_rules attendance_records per_day_salary deduction_rules).1 =
      dictSum (apply_deduction_rules attendance_records per_day_salary deduction_rules).2 := by
  have : sumInv (apply_deduction_rules attendance_records per_day_salary deduction_rules) := by
    unfold apply_deduction_rules
    exact sumInv_foldl _
      (fun a b ha => sumInv_processRecord attendance_records per_day_salary deduction_rules a b ha)
      attendance_records (0, []) rfl
  exact this

theorem length_filter_not {α : Type} (p : α → Bool) (l : List α) :
    (l.filter (fun a => !(p a))).length = l.length - (l.filter p).length := by
  induction l with
  | nil => rfl
  | cons x rest ih =>
      by_cases h : p x
      · simp [List.filter_cons, h, ih]
      · have hle := List.length_filter_le p rest
        simp [List.filter_cons, h, ih]
        omega

/-- C6: for every valid month (1-12) and year, `calculate_working_days`
returns the number of calendar days in the month minus the number of
Saturdays and Sundays in it. -/
theorem c6_working_days (month year : Nat) (hm₁ : 1 ≤ month) (hm₂ : month ≤ 12)
    (hy : 1 ≤ year) :
    calculate_working_days month year true =
      daysInMonth year month - weekendDaysInMonth month year := by
  have hcongr :
      (List.range (daysInMonth year month)).filter
          (fun d => decide (pyWeekday year month (d + 1) = 5 ∨ pyWeekday year month (d + 1) = 6)) =
        (List.range (daysInMonth year month)).filter
          (fun d => !(decide (pyWeekday year month (d + 1) < 5))) := by
    apply List.filter_congr
    intro d _
    have hlt : pyWeekday year month (d + 1) < 7 := by
      unfold pyWeekday
      exact Nat.mod_lt _ (by omega)
    by_cases h : pyWeekday year month (d + 1) < 5
    · simp [h]; omega
    · simp [h]; omega
  have hle := List.length_filter_le
    (fun d => decide (pyWeekday year month (d + 1) < 5)) (List.range (daysInMonth year month))
  unfold calculate_working_days weekendDaysInMonth
  rw [hcongr, length_filter_not]
  simp only [Bool.not_true, Bool.false_eq_true, if_false, List.length_range] at hle ⊢
  omega

/-- Witness for C6 at February 2026 (closed instance; 20 working days). -/
theorem c6_working_days_witness :
    calculate_working_days 2 2026 true = daysInMonth 2026 2 - weekendDaysInMonth 2 2026 ∧
      calculate_working_days 2 2026 true = 20 :=
  ⟨c6_working_days 2 2026 (by decide) (by decide) (by decide), by decide⟩

theorem foldl_id {α β : Type} (f : α → β → α) (l : List β)
    (h : ∀ a, ∀ b ∈ l, f a b = a) : ∀ a, l.foldl f a = a := by
  induction l with
  | nil => intro a; rfl
  | cons b rest ih =>
      intro a
      rw [List.foldl_cons, h a b (by simp)]
      exact ih (fun a' b' hb' => h a' b' (by simp [hb'])) a

theorem foldl_accrue_const {β : Type} (f : (ℚ × List (String × ℚ)) → β → (ℚ × List (String × ℚ)))
    (l : List β) (name : String) (amt : ℚ)
    (h : ∀ a, ∀ b ∈ l, f a b = accrue a name amt) :
    ∀ a, (l.foldl f a).1 = a.1 + l.length * amt := by
  induction l with
  | nil => intro a; simp
  | cons b rest ih =>
      intro a
      rw [List.foldl_cons, h a b (by simp),
        ih (fun a' b' hb' => h a' b' (by simp [hb']))]
      simp [accrue]
      ring


theorem processRecord_late (evs : List Event) (r : DeductionRule) (pd : ℚ)
    (htype : r.rule_type = some "late_coming")
    (hgrace : r.grace_minutes = some 10)
    (hmax : r.max_late_count = some 3)
    (hall : ∀ e ∈ evs, lateBeyondGrace 10 e = true)
    (acc : ℚ × List (String × ℚ)) (e : Event)
    (hstat : e.status = some "late") (hded : e.deduction_amount = none)
    (hlm : 10 < e.late_minutes.getD 0) :
    processRecord evs pd [r] acc e =
      if 3 < (evs.length : Int) then
        accrue acc (r.rule_name.getD "Late Coming") (calculate_deduction r "late" pd)
      else acc := by
  have hfilter : evs.filter (lateBeyondGrace 10) = evs := List.filter_eq_self.mpr hall
  unfold processRecord
  rw [hstat, hded]
  simp only [Option.getD_some, Option.getD_none, lt_irrefl, false_and, if_false,
    reasonTruthy]
  rw [if_neg (by decide), if_neg (by decide), if_pos trivial]
  have hrules : rulesOfType [r] "late_coming" = [r] := by
    simp [rulesOfType, htype]
  rw [hrules, List.foldl_cons, List.foldl_nil, hgrace, hmax]
  simp only [Option.getD_some]
  rw [if_pos hlm]
  simp only [hfilter, gt_iff_lt]

/-- C1 (amended): for a `LateComing` rule with `grace_minutes = 10` and
`max_late_count = 3`, a month whose events are all late beyond grace
(with no precomputed deduction) incurs zero late deduction at exactly 3
events; at 4 events the engine applies the rule once per late event —
four rule-applications' worth, not one. -/
theorem c1_late_threshold (evs : List Event) (r : DeductionRule) (pd : ℚ)
    (htype : r.rule_type = some "late_coming")
    (hgrace : r.grace_minutes = some 10)
    (hmax : r.max_late_count = some 3)
    (hev : ∀ e ∈ evs, e.status = some "late" ∧ e.deduction_amount = none ∧
      10 < e.late_minutes.getD 0) :
    (evs.length = 3 → (apply_deduction_rules evs pd [r]).1 = 0) ∧
    (evs.length = 4 → (apply_deduction_rules evs pd [r]).1 =
      4 * calculate_deduction r "late" pd) := by
  have hall : ∀ e ∈ evs, lateBeyondGrace 10 e = true := by
    intro e he
    obtain ⟨h1, _, h3⟩ := hev e he
    simp [lateBeyondGrace, h1, h3]
  constructor
  · intro hlen
    have hstep : ∀ a, ∀ e ∈ evs, processRecord evs pd [r] a e = a := by
      intro a e he
      obtain ⟨h1, h2, h3⟩ := hev e he
      rw [processRecord_late evs r pd htype hgrace hmax hall a e h1 h2 h3]
      rw [if_neg (by rw [hlen]; decide)]
    unfold apply_deduction_rules
    rw [foldl_id _ _ hstep]
  · intro hlen
    have hstep : ∀ a, ∀ e ∈ evs, processRecord evs pd [r] a e =
        accrue a (r.rule_name.getD "Late Coming") (calculate_deduction r "late" pd) := by
      intro a e he
      obtain ⟨h1, h2, h3⟩ := hev e he
      rw [processRecord_late evs r pd htype hgrace hmax hall a e h1 h2 h3]
      rw [if_pos (by rw [hlen]; decide)]
    unfold apply_deduction_rules
    rw [foldl_accrue_const _ _ _ _ hstep, hlen]
    push_cast
    ring

/-- Witness for C1 at concrete inputs: 3 beyond-grace late events cost
nothing; 4 cost four applications of the rule. -/
theorem c1_late_threshold_witness :
    (apply_deduction_rules exLateEvents3 1000 [exLateRule]).1 = 0 ∧
    (apply_deduction_rules exLateEvents4 1000 [exLateRule]).1 =
      4 * calculate_deduction exLateRule "late" 1000 :=
  ⟨(c1_late_threshold exLateEvents3 exLateRule 1000 rfl rfl rfl (by decide)).1 rfl,
   (c1_late_threshold exLateEvents4 exLateRule 1000 rfl rfl rfl (by decide)).2 rfl⟩

/-- C1 counterexample to the claim as stated: with a 4th beyond-grace
late event present, the engine produces 400 — four rule-applications'
worth (100 each) — not "exactly one rule-application's worth". -/
theorem c1_counterexample :
    (apply_deduction_rules exLateEvents4 1000 [exLateRule]).1 = 400 ∧
    calculate_deduction exLateRule "late" 1000 = 100 ∧
    (apply_deduction_rules exLateEvents4 1000 [exLateRule]).1 ≠
      calculate_deduction exLateRule "late" 1000 := by
  have h4 : (apply_deduction_rules exLateEvents4 1000 [exLateRule]).1 = 400 := by
    simp [apply_deduction_rules, processRecord, exLateEvents4, mkLateEvent,
      exLateRule, rulesOfType, lateBeyondGrace, reasonTruthy, accrue, dictAdd,
      calculate_deduction, List.filter]
    norm_num
  have h1 : calculate_deduction exLateRule "late" 1000 = 100 := by
    simp [calculate_deduction, exLateRule]
  exact ⟨h4, h1, by rw [h4, h1]; norm_num⟩
/-- C2: at ingestion time a `percentage` late rule stores
`deduction_value * 100` (500 for a 5-percent rule) on the biometric
record, while the Deduction Rule Engine's percentage formula computes
`(deduction_value / 100) * per_day_salary` (5 at the per-day salary of
100 the ingestion code's own comment assumes) — the precomputed amount
does not equal what the engine would compute, at any per-day salary
below 10000. -/
theorem c2_ingestion_engine_mismatch :
    ingestion_late_deduction exPctRule = 500 ∧
    calculate_deduction exPctRule "late" 100 = 5 ∧
    ingestion_late_deduction exPctRule ≠ calculate_deduction exPctRule "late" 100 := by
  have hi : ingestion_late_deduction exPctRule = 500 := by
    simp [ingestion_late_deduction, exPctRule]
    norm_num
  have hc : calculate_deduction exPctRule "late" 100 = 5 := by
    simp [calculate_deduction, exPctRule]
  exact ⟨hi, hc, by rw [hi, hc]; norm_num⟩

/-- C3: `net_salary = basic_salary - total_deductions + bonuses +
allowances` with no clamping, for every calculation that returns a
result; and in the scenario with `basic_monthly_salary = 30000`,
`per_day_salary = 1000` and 2 absences under an active `Absent` rule of
type `full_day`, `total_deductions = 2000` and `net_salary = 28000`. -/
theorem c3_net_salary_formula :
    (∀ (db : DB) (teacher_id : String) (month year : Nat)
        (basic_salary per_day_salary : Option ℚ) (bonuses allowances : ℚ)
        (use_biometric fallback_to_regular : Bool) (res : SalaryCalculationResult),
      calculate_salary db teacher_id month year basic_salary per_day_salary
          bonuses allowances use_biometric fallback_to_regular = .ok res →
      res.net_salary = res.basic_salary - res.total_deductions + res.bonuses + res.allowances) ∧
    (calculate_salary exScenarioDB "t1" 1 2026 (some 30000) (some 1000) 0 0 true true).map
      (fun r => (r.total_deductions, r.net_salary)) = .ok (2000, 28000) := by
  constructor
  · intro db tid m y b p bon alw ub fb res h
    unfold calculate_salary at h
    rcases b with _ | b₀ <;> rcases p with _ | p₀ <;>
      [skip; skip; skip; (cases h; rfl)] <;>
      · rcases hc : activeConfigs db tid with _ | ⟨c, rest⟩ <;> rw [hc] at h
        · exact absurd h (by simp)
        · cases h; rfl
  · simp [calculate_salary, activeConfigs, exScenarioDB, get_attendance_records,
      bioWindow, inMonthWindow, dateLE, dateLT, exAbsentBio, bioToEvent,
      get_deduction_rules, exAbsentRule, apply_deduction_rules, processRecord,
      rulesOfType, reasonTruthy, accrue, dictAdd, calculate_deduction, Except.map]
    norm_num

/-- C4: the calculation fails exactly when `basic_salary` or
`per_day_salary` is omitted and the teacher has no active salary
configuration, and the error is the "no configuration" one; every other
input — including failed biometric, manual-attendance or rule reads and
empty attendance — yields a result. -/
theorem c4_no_config_is_only_failure (db : DB) (teacher_id : String) (month year : Nat)
    (basic_salary per_day_salary : Option ℚ) (bonuses allowances : ℚ)
    (use_biometric fallback_to_regular : Bool) :
    ((∃ e, calculate_salary db teacher_id month year basic_salary per_day_salary
        bonuses allowances use_biometric fallback_to_regular = .error e) ↔
      ((basic_salary = none ∨ per_day_salary = none) ∧ activeConfigs db teacher_id = [])) ∧
    (∀ e, calculate_salary db teacher_id month year basic_salary per_day_salary
        bonuses allowances use_biometric fallback_to_regular = .error e →
      e = noConfigMsg teacher_id) := by
  unfold calculate_salary
  rcases basic_salary with _ | b₀ <;> rcases per_day_salary with _ | p₀ <;>
    [skip; skip; skip; simp] <;>
    · rcases hc : activeConfigs db teacher_id with _ | ⟨c, rest⟩ <;> simp [hc]

/-- C5: the attendance source resolver returns the biometric month
window verbatim whenever biometric use is on and the window is nonempty
(the manual source untouched); otherwise, with fallback on, it returns
the manual records mapped through `manualToEvent` — which turns
`excused` into `present`, passes every other status through, and zeroes
the deduction fields; and when neither source yields records the result
is empty. -/
theorem c5_resolver (db : DB) (teacher_id : String) (month year : Nat) :
    (∀ fb : Bool, db.bio_read_ok = true →
      db.teachers.any (fun t => decide (t.id = teacher_id)) = true →
      bioWindow db teacher_id month year ≠ [] →
      get_attendance_records db teacher_id month year true fb =
        (bioWindow db teacher_id month year).map bioToEvent) ∧
    (∀ (ub : Bool) (t : TeacherRow),
      (ub = false ∨ bioWindow db teacher_id month year = []) →
      db.reg_read_ok = true →
      db.teachers.find? (fun t => decide (t.id = teacher_id)) = some t →
      get_attendance_records db teacher_id month year ub true =
        (manualWindow db t.user_id month year).map manualToEvent) ∧
    (∀ a : ManualRow,
      (manualToEvent a).status =
          some (if a.status.getD "absent" = "excused" then "present" else a.status.getD "absent") ∧
        (manualToEvent a).deduction_amount = some 0 ∧
        (manualToEvent a).deduction_reason = none ∧
        (manualToEvent a).late_minutes = some 0) ∧
    (∀ ub : Bool, (ub = false ∨ bioWindow db teacher_id month year = []) →
      get_attendance_records db teacher_id month year ub false = []) ∧
    (∀ (ub : Bool) (t : TeacherRow),
      (ub = false ∨ bioWindow db teacher_id month year = []) →
      db.teachers.find? (fun t => decide (t.id = teacher_id)) = some t →
      manualWindow db t.user_id month year = [] →
      get_attendance_records db teacher_id month year ub true = []) := by
  refine ⟨?_, ?_, ?_, ?_, ?_⟩
  · intro fb hbio hany hne
    simp only [get_attendance_records, hbio, hany, Bool.and_true, Bool.true_and, if_true]
    rw [if_pos (by simpa using hne)]
  · intro ub t hb hreg hfind
    have hbio : (if ub && db.bio_read_ok && db.teachers.any (fun t => decide (t.id = teacher_id))
        then (bioWindow db teacher_id month year).map bioToEvent else []) = [] := by
      rcases hb with hb | hb
      · simp [hb]
      · simp [hb]
    simp only [get_attendance_records, hbio, ne_eq, not_true_eq_false, if_false,
      if_true, hreg, hfind]
  · intro a
    refine ⟨?_, rfl, rfl, rfl⟩
    simp [manualToEvent]
  · intro ub hb
    have hbio : (if ub && db.bio_read_ok && db.teachers.any (fun t => decide (t.id = teacher_id))
        then (bioWindow db teacher_id month year).map bioToEvent else []) = [] := by
      rcases hb with hb | hb
      · simp [hb]
      · simp [hb]
    simp only [get_attendance_records, hbio, ne_eq, not_true_eq_false, if_false,
      Bool.false_eq_true]
  · intro ub t hb hfind hman
    have hbio : (if ub && db.bio_read_ok && db.teachers.any (fun t => decide (t.id = teacher_id))
        then (bioWindow db teacher_id month year).map bioToEvent else []) = [] := by
      rcases hb with hb | hb
      · simp [hb]
      · simp [hb]
    cases hreg : db.reg_read_ok <;>
      simp only [get_attendance_records, hbio, ne_eq, not_true_eq_false, if_false,
        if_true, hreg, hfind, hman, List.map_nil, Bool.false_eq_true]

/-- C8: generating an invoice for an existing but unapproved calculation
fails with the not-approved validation error and leaves the database
unchanged (nothing is written). -/
theorem c8_unapproved_writes_nothing (db : FinanceDB) (req : InvoiceReq) (today : Nat)
    (calcRow : Calculation)
    (hfind : db.calculations.find? (fun c => decide (c.id = req.calculation_id)) = some calcRow)
    (hunapproved : calcRow.is_approved = false) :
    generate_invoice db req today = (.error .notApproved, db) := by
  unfold generate_invoice
  rw [hfind]
  simp [hunapproved]
/-- Witness for C8: the concrete unapproved calculation yields the
validation error and the untouched database. -/
theorem c8_unapproved_witness :
    generate_invoice exFinanceDB exInvoiceReq 738900 =
      (.error .notApproved, exFinanceDB) :=
  c8_unapproved_writes_nothing exFinanceDB exInvoiceReq 738900 exUnapprovedCalc
    (by decide) rfl

/-- C7: invoice generation is idempotent — when an invoice for the
requested `calculation_id` already exists (and the calculation exists
and is approved, the operation's preconditions), the existing invoice is
returned and the database is unchanged; and one generation step
preserves "at most one invoice per calculation_id". -/
theorem c7_invoice_idempotent (db : FinanceDB) (req : InvoiceReq) (today : Nat) :
    (∀ (calcRow : Calculation) (inv₀ : Invoice),
      db.calculations.find? (fun c => decide (c.id = req.calculation_id)) = some calcRow →
      calcRow.is_approved = true →
      db.invoices.find? (fun i => decide (i.calculation_id = req.calculation_id)) = some inv₀ →
      generate_invoice db req today = (.ok inv₀, db)) ∧
    (db.invoices.Pairwise (fun a b => a.calculation_id ≠ b.calculation_id) →
      (generate_invoice db req today).2.invoices.Pairwise
        (fun a b => a.calculation_id ≠ b.calculation_id)) := by
  constructor
  · intro calcRow inv₀ hfind happ hinv
    unfold generate_invoice
    rw [hfind]
    simp [happ, hinv]
  · intro hpw
    unfold generate_invoice
    cases hfind : db.calculations.find? (fun c => decide (c.id = req.calculation_id)) with
    | none => exact hpw
    | some calcRow =>
      by_cases happ : calcRow.is_approved = true
      · simp only [happ, Bool.not_true, Bool.false_eq_true, if_false]
        cases hinv : db.invoices.find? (fun i => decide (i.calculation_id = req.calculation_id)) with
        | some inv₀ => exact hpw
        | none =>
          show (db.invoices ++ [_]).Pairwise _
          rw [List.pairwise_append]
          refine ⟨hpw, by simp, ?_⟩
          intro a ha b hb
          have hnone := List.find?_eq_none.mp hinv a ha
          simp only [decide_eq_true_eq] at hnone
          simp only [List.mem_singleton] at hb
          subst hb
          simpa using hnone
      · simp only [Bool.not_eq_true] at happ
        simp only [happ, Bool.not_false, if_true]
        exact hpw

theorem upload_fold_inv (env : IngestEnv) (upload_id : String) (rows : List CsvRow) :
    ∀ st : UploadState,
      st.error_log.length = st.records_failed →
      st.records_successful + st.records_failed = st.records_processed →
      ((rows.foldl (processUploadRow env upload_id) st).error_log.length =
          (rows.foldl (processUploadRow env upload_id) st).records_failed) ∧
        ((rows.foldl (processUploadRow env upload_id) st).records_successful +
            (rows.foldl (processUploadRow env upload_id) st).records_failed =
          (rows.foldl (processUploadRow env upload_id) st).records_processed) ∧
        (rows.foldl (processUploadRow env upload_id) st).records_processed =
          st.records_processed + rows.length := by
  induction rows with
  | nil => intro st h1 h2; exact ⟨h1, h2, by simp⟩
  | cons row rest ih =>
      intro st h1 h2
      rw [List.foldl_cons]
      cases hres : process_csv_row env upload_id row with
      | ok rec =>
          have h := ih (processUploadRow env upload_id st row)
            (by simp [processUploadRow, hres, h1])
            (by simp [processUploadRow, hres]; omega)
          refine ⟨h.1, h.2.1, ?_⟩
          rw [h.2.2]
          simp [processUploadRow, hres]
          omega
      | fail msg =>
          have h := ih (processUploadRow env upload_id st row)
            (by simp [processUploadRow, hres, h1])
            (by simp [processUploadRow, hres]; omega)
          refine ⟨h.1, h.2.1, ?_⟩
          rw [h.2.2]
          simp [processUploadRow, hres]
          omega

/-- C9: after all rows are processed, the persisted `upload_status` is
`completed` exactly when no row failed, `partial` exactly when at least
one row failed and at least one succeeded, and `failed` exactly when
rows failed and none succeeded; the error log carries one entry per
failed row, and successes and failures partition the processed rows. -/
theorem c9_upload_status (env : IngestEnv) (upload_id : String)
    (initial_bio : List BioRow) (rows : List CsvRow) :
    ((upload_biometric_csv env upload_id initial_bio rows).2 = "completed" ↔
      (upload_biometric_csv env upload_id initial_bio rows).1.records_failed = 0) ∧
    ((upload_biometric_csv env upload_id initial_bio rows).2 = "partial" ↔
      ((upload_biometric_csv env upload_id initial_bio rows).1.records_failed ≠ 0 ∧
        (upload_biometric_csv env upload_id initial_bio rows).1.records_successful ≠ 0)) ∧
    ((upload_biometric_csv env upload_id initial_bio rows).2 = "failed" ↔
      ((upload_biometric_csv env upload_id initial_bio rows).1.records_failed ≠ 0 ∧
        (upload_biometric_csv env upload_id initial_bio rows).1.records_successful = 0)) ∧
    (upload_biometric_csv env upload_id initial_bio rows).1.error_log.length =
      (upload_biometric_csv env upload_id initial_bio rows).1.records_failed ∧
    (upload_biometric_csv env upload_id initial_bio rows).1.records_successful +
        (upload_biometric_csv env upload_id initial_bio rows).1.records_failed =
      (upload_biometric_csv env upload_id initial_bio rows).1.records_processed ∧
    (upload_biometric_csv env upload_id initial_bio rows).1.records_processed = rows.length := by
  have hinv := upload_fold_inv env upload_id rows
    { records_processed := 0, records_successful := 0, records_failed := 0,
      error_log := [], bio_db := initial_bio } rfl rfl
  unfold upload_biometric_csv at *
  dsimp only at hinv ⊢
  obtain ⟨hlog, hsum, hproc⟩ := hinv
  refine ⟨?_, ?_, ?_, hlog, hsum, by rw [hproc]; simp⟩
  · by_cases hf : (rows.foldl (processUploadRow env upload_id)
        { records_processed := 0, records_successful := 0, records_failed := 0,
          error_log := [], bio_db := initial_bio }).records_failed = 0
    · simp [hf]
    · by_cases hs : (rows.foldl (processUploadRow env upload_id)
          { records_processed := 0, records_successful := 0, records_failed := 0,
            error_log := [], bio_db := initial_bio }).records_successful > 0 <;>
        simp [hf, hs]
  · by_cases hf : (rows.foldl (processUploadRow env upload_id)
        { records_processed := 0, records_successful := 0, records_failed := 0,
          error_log := [], bio_db := initial_bio }).records_failed = 0
    · simp [hf]
    · by_cases hs : (rows.foldl (processUploadRow env upload_id)
          { records_processed := 0, records_successful := 0, records_failed := 0,
            error_log := [], bio_db := initial_bio }).records_successful > 0 <;>
        simp [hf, hs] <;> omega
  · by_cases hf : (rows.foldl (processUploadRow env upload_id)
        { records_processed := 0, records_successful := 0, records_failed := 0,
          error_log := [], bio_db := initial_bio }).records_failed = 0
    · simp [hf]
    · by_cases hs : (rows.foldl (processUploadRow env upload_id)
          { records_processed := 0, records_successful := 0, records_failed := 0,
            error_log := [], bio_db := initial_bio }).records_successful > 0 <;>
        simp [hf, hs] <;> omega

end GhaniSchool
